import Mathlib

/-!
# Verification of `tracking-analyzer.js` (web3 fingerprinting research)

Shallow embedding of the `Web3TrackingAnalyzer` class from
`src/tracking-analyzer.js` together with proofs about its behaviour.

Strings are modelled as `List Char`; the JavaScript `String.prototype.includes` method
is modelled by `jsIncludes`.  The browser is an external collaborator: one
`analyze(url)` call interacts with it through a `PageEnv` value describing
everything the browser session exposes to the analyzer (observed network
requests, page-evaluation results or the errors they throw, cookies, the
page-global fingerprinting flags set by the injected instrumentation).
The behaviour of the analyzer itself — record construction, filtering, error
capture, state update, report generation — is translated function by
function from the source.
-/

set_option autoImplicit false

/-- JavaScript strings, modelled as lists of characters. -/
abbrev Str := List Char

/-- JS `hay.includes(sub)`: `sub` occurs as a (case-sensitive, contiguous)
substring of `hay`.  `"".includes("")` is `true` in JS, matched here. -/
def jsIncludes (hay sub : Str) : Bool :=
  match hay with
  | [] => sub.isEmpty
  | c :: t => sub.isPrefixOf (c :: t) || jsIncludes t sub

/-- Sanity: `jsIncludes` agrees with the mathematical infix relation. -/
theorem jsIncludes_iff_infix (hay sub : Str) :
    jsIncludes hay sub = true ↔ sub <:+: hay := by
  induction hay with
  | nil =>
    simp [jsIncludes, List.isEmpty_iff]
  | cons c t ih =>
    simp only [jsIncludes, Bool.or_eq_true, ih, List.isPrefixOf_iff_prefix,
      List.infix_cons_iff]

namespace Web3TrackingAnalyzer

/-- A script element as enumerated in the page:
`{ src: script.src, content: script.innerHTML }`. -/
structure TrackingScript where
  src : Str
  content : Str
deriving DecidableEq, Repr

/-- A cookie descriptor as returned by `context.cookies()`
(only the fields the analyzer inspects are modelled). -/
structure Cookie where
  name : Str
  domain : Str
deriving DecidableEq, Repr

/-- A request as observed by the route handler:
url, method, headers, post data (possibly null). -/
structure ReqInfo where
  url : Str
  method : Str
  headers : List (Str × Str)
  data : Option Str
deriving DecidableEq, Repr

/-- An entry of `results[url].networkRequests`:
the observed request plus its category (field `type`). -/
structure NetworkRequest where
  url : Str
  method : Str
  headers : List (Str × Str)
  data : Option Str
  type : Str
deriving DecidableEq, Repr

/-- The `fingerprinting` sub-record: `{canvas, webgl, fonts, audio}`. -/
structure Fingerprinting where
  canvas : Bool
  webgl : Bool
  fonts : Bool
  audio : Bool
deriving DecidableEq, Repr

/-- The `walletTracking` sub-record: `{detected, methods}`. -/
structure WalletTracking where
  detected : Bool
  methods : List Str
deriving DecidableEq, Repr

/-- `isTrackingRequest(url)`: the fixed substring allowlist for requests. -/
def isTrackingRequest (url : Str) : Bool :=
  [("cookie3.co" : String).data, ("analytics" : String).data,
   ("tracking" : String).data, ("collect" : String).data,
   ("wallet" : String).data].any (fun pattern => jsIncludes url pattern)

/-- `categorizeRequest(url)`: fixed-precedence categorization. -/
def categorizeRequest (url : Str) : Str :=
  if jsIncludes url ("cookie3.co" : String).data then ("cookie3" : String).data
  else if jsIncludes url ("analytics" : String).data then ("analytics" : String).data
  else if jsIncludes url ("tracking" : String).data then ("tracking" : String).data
  else ("other" : String).data

/-- `isTrackingCookie(cookie)`: cookie name or domain matches the allowlist. -/
def isTrackingCookie (cookie : Cookie) : Bool :=
  [("cookie3" : String).data, ("analytics" : String).data,
   ("_ga" : String).data, ("track" : String).data].any (fun pattern =>
    jsIncludes cookie.name pattern || jsIncludes cookie.domain pattern)

/-- The keyword list of `analyzeTrackingScripts`. -/
def trackingKeywords : List Str :=
  [("cookie3" : String).data, ("analytics" : String).data,
   ("tracking" : String).data, ("wallet" : String).data,
   ("web3" : String).data]

/-- The retention predicate of `analyzeTrackingScripts`:
`tracking.some(term => script.src.includes(term) || script.content.includes(term))`. -/
def isTrackingScript (script : TrackingScript) : Bool :=
  trackingKeywords.any (fun term =>
    jsIncludes script.src term || jsIncludes script.content term)

/-- The page-side computation of `analyzeTrackingScripts`: map every script
element to `{src, content}` and keep those matching the keyword list. -/
def filterTrackingScripts (scripts : List TrackingScript) : List TrackingScript :=
  scripts.filter isTrackingScript

/-- The fixed pattern list scanned over the rendered document markup in
`analyzeWalletTracking`. -/
def walletPatterns : List Str :=
  [("accountsChanged" : String).data, ("ethereum.on(" : String).data,
   ("wallet.on(" : String).data, ("web3" : String).data]

/-- One iteration of the `patterns.forEach` loop in `analyzeWalletTracking`:
if the page source includes the pattern, push it and set `detected`. -/
def walletStep (source : Str) (acc : WalletTracking) (pattern : Str) : WalletTracking :=
  if jsIncludes source pattern then
    { detected := true, methods := acc.methods ++ [pattern] }
  else acc

/-- The page-side computation of `analyzeWalletTracking`, as a function of the
page state it reads: whether `window.ethereum` is present and the rendered
document markup (`document.documentElement.outerHTML`). -/
def walletTrackingOf (hasEthereum : Bool) (source : Str) : WalletTracking :=
  let results : WalletTracking := { detected := false, methods := [] }
  let results :=
    if hasEthereum then
      { detected := true, methods := results.methods ++ [("ethereum" : String).data] }
    else results
  walletPatterns.foldl (walletStep source) results

/-- Which of the three patched browser APIs the page invoked during load.
`setupFingerprintingDetection` patches exactly these entry points. -/
structure ApiInvocations where
  canvasToDataURL : Bool
  webglGetParameter : Bool
  audioCreateOscillator : Bool
deriving DecidableEq, Repr

/-- Semantics of the instrumentation injected by `setupFingerprintingDetection`:
the page-global `window._fingerprinting` flags after page load, as a function
of which patched APIs the page invoked.  `canvas`/`webgl`/`audio` are set by
the respective patched entry point; no observer ever sets `fonts`. -/
def pageGlobalFlags (inv : ApiInvocations) : Fingerprinting :=
  { canvas := inv.canvasToDataURL
    webgl := inv.webglGetParameter
    fonts := false
    audio := inv.audioCreateOscillator }

/-- One `results[url]` record.  `localStorage` and `errors` are `Option`al
because the JS object is created without them (lines 28–44) and they are only
assigned later: `localStorage` by `analyzeLocalStorage`, `errors` by the
`catch` branch.  `none` models the absent property. -/
structure AnalysisRecord where
  url : Str
  timestamp : Str
  trackingScripts : List TrackingScript
  networkRequests : List NetworkRequest
  cookies : List Cookie
  fingerprinting : Fingerprinting
  walletTracking : WalletTracking
  localStorage : Option (List (Str × Str))
  errors : Option (List Str)
deriving DecidableEq, Repr

/-- The record as created at the start of `analyze` (lines 28–44). -/
def initialRecord (url timestamp : Str) : AnalysisRecord :=
  { url := url
    timestamp := timestamp
    trackingScripts := []
    networkRequests := []
    cookies := []
    fingerprinting := { canvas := false, webgl := false, fonts := false, audio := false }
    walletTracking := { detected := false, methods := [] }
    localStorage := none
    errors := none }

instance : Inhabited AnalysisRecord := ⟨initialRecord [] []⟩

/-- Everything one browser session exposes to `analyze`.  Each page-evaluation
step may throw (`Except.error msg` models the promise rejecting with
`error.message = msg`); `navResult = some msg` models `page.goto` failing.
`invocations` is the page-side input to the injected instrumentation. -/
structure PageEnv where
  navResult : Option Str
  requests : List ReqInfo
  invocations : ApiInvocations
  scriptsEval : Except Str (List TrackingScript)
  storageEval : Except Str (List (Str × Str))
  cookiesRead : Except Str (List Cookie)
  ethereumPresent : Bool
  pageSource : Str
  walletEval : Except Str Unit

/-- The `networkRequests` entries accumulated by the route handler of
`setupNetworkMonitoring`: every observed request whose URL matches
`isTrackingRequest`, with its category attached. -/
def observedRequests (requests : List ReqInfo) : List NetworkRequest :=
  (requests.filter (fun request => isTrackingRequest request.url)).map
    (fun request =>
      { url := request.url
        method := request.method
        headers := request.headers
        data := request.data
        type := categorizeRequest request.url })

/-- The `try { ... } catch` body of `analyze` (lines 46–71): navigation, then
the four extraction steps in order, mutating the record; the first error
aborts the remaining steps and is recorded as `errors = [error.message]`.
The screenshot step catches its own errors and never affects the record.
Nothing in this body ever reads the page-global `_fingerprinting` flags. -/
def tryAnalyze (env : PageEnv) (record : AnalysisRecord) : AnalysisRecord :=
  match env.navResult with
  | some msg => { record with errors := some [msg] }
  | none =>
    match env.scriptsEval with
    | .error msg => { record with errors := some [msg] }
    | .ok scripts =>
      let record := { record with trackingScripts := filterTrackingScripts scripts }
      match env.storageEval with
      | .error msg => { record with errors := some [msg] }
      | .ok storage =>
        let record := { record with localStorage := some storage }
        match env.cookiesRead with
        | .error msg => { record with errors := some [msg] }
        | .ok cookies =>
          let record := { record with cookies := cookies.filter isTrackingCookie }
          match env.walletEval with
          | .error msg => { record with errors := some [msg] }
          | .ok _ =>
            { record with
                walletTracking := walletTrackingOf env.ethereumPresent env.pageSource }

/-- The persistent analyzer state: `this.results`, a JS object used as a
mapping from URL to record.  Insertion-ordered, keys unique. -/
structure AnalyzerState where
  results : List (Str × AnalysisRecord)
deriving DecidableEq, Repr

/-- `new Web3TrackingAnalyzer()`: empty results mapping. -/
def initState : AnalyzerState := { results := [] }

/-- JS property assignment `obj[key] = value` on an insertion-ordered object:
replace in place when the key exists, append otherwise. -/
def setKey (m : List (Str × AnalysisRecord)) (key : Str) (value : AnalysisRecord) :
    List (Str × AnalysisRecord) :=
  match m with
  | [] => [(key, value)]
  | (k, v) :: rest =>
    if k = key then (key, value) :: rest else (k, v) :: setKey rest key value

/-- JS property read `obj[key]`. -/
def getKey (m : List (Str × AnalysisRecord)) (key : Str) : Option AnalysisRecord :=
  match m with
  | [] => none
  | (k, v) :: rest => if k = key then some v else getKey rest key

/-- Effects of one `analyze` call other than the returned record and the
state update: the session is closed and the whole accumulated results
mapping is handed to `saveResults` (persistence failures are swallowed
there and never reach the caller). -/
structure SessionFx where
  browserClosed : Bool
  persisted : Option (List (Str × AnalysisRecord))
deriving DecidableEq, Repr

/-- `analyze(url)` (lines 16–77): create the fresh record under
`results[url]`, record the intercepted tracking requests, run the try/catch
body, then unconditionally close the browser, persist the full mapping, and
return `results[url]`. -/
def analyze (url timestamp : Str) (env : PageEnv) (s : AnalyzerState) :
    AnalyzerState × AnalysisRecord × SessionFx :=
  let record := initialRecord url timestamp
  let record := { record with networkRequests := observedRequests env.requests }
  let record := tryAnalyze env record
  let s : AnalyzerState := { results := setKey s.results url record }
  (s, record, { browserClosed := true, persisted := some s.results })

/-- The aggregate report of `generateReport` (lines 271–300). -/
structure Report where
  analyzedUrls : Nat
  cookie3 : Nat
  googleAnalytics : Nat
  customTracking : Nat
  fingerprintingDetected : Nat
  walletTrackingDetected : Nat
  details : List (Str × AnalysisRecord)
deriving DecidableEq, Repr

/-- Predicate tallied into `trackingImplementations.cookie3`:
`result.trackingScripts.some(s => s.src.includes(...))` with the `cookie3` literal. -/
def countsAsCookie3 (record : AnalysisRecord) : Bool :=
  record.trackingScripts.any (fun script =>
    jsIncludes script.src ("cookie3" : String).data)

/-- Predicate tallied into `fingerprintingDetected`. -/
def countsAsFingerprinting (record : AnalysisRecord) : Bool :=
  record.fingerprinting.canvas || record.fingerprinting.webgl ||
    record.fingerprinting.audio

/-- `generateReport()`: a pure function of the current results mapping;
one pass over the mapping tallying the counters. -/
def generateReport (s : AnalyzerState) : Report :=
  { analyzedUrls := s.results.length
    cookie3 := s.results.countP (fun entry => countsAsCookie3 entry.2)
    googleAnalytics := 0
    customTracking := 0
    fingerprintingDetected :=
      s.results.countP (fun entry => countsAsFingerprinting entry.2)
    walletTrackingDetected :=
      s.results.countP (fun entry => entry.2.walletTracking.detected)
    details := s.results }

/-- The `generateReport` method as an operation on the analyzer: it reads the
state and produces a report; the state it leaves behind is unchanged (the
method body never assigns to `this.results`). -/
def generateReportOp (s : AnalyzerState) : AnalyzerState × Report :=
  (s, generateReport s)

/-- States reachable by a `Web3TrackingAnalyzer` instance: the empty initial
mapping, grown by any sequence of `analyze` calls. -/
inductive Reachable : AnalyzerState → Prop where
  | init : Reachable initState
  | step (url timestamp : Str) (env : PageEnv) {s : AnalyzerState} :
      Reachable s → Reachable (analyze url timestamp env s).1

/-- The first error thrown inside the `try` block of `analyze`, if any:
navigation first, then the extraction steps in program order. -/
def sessionError (env : PageEnv) : Option Str :=
  match env.navResult with
  | some msg => some msg
  | none =>
    match env.scriptsEval with
    | .error msg => some msg
    | .ok _ =>
      match env.storageEval with
      | .error msg => some msg
      | .ok _ =>
        match env.cookiesRead with
        | .error msg => some msg
        | .ok _ =>
          match env.walletEval with
          | .error msg => some msg
          | .ok _ => none

/-! ## Helper lemmas -/

theorem tryAnalyze_url (env : PageEnv) (r : AnalysisRecord) :
    (tryAnalyze env r).url = r.url := by
  obtain ⟨nav, reqs, inv, se, ste, ce, eth, src, we⟩ := env
  cases nav <;> cases se <;> cases ste <;> cases ce <;> cases we <;>
    simp [tryAnalyze]

theorem tryAnalyze_timestamp (env : PageEnv) (r : AnalysisRecord) :
    (tryAnalyze env r).timestamp = r.timestamp := by
  obtain ⟨nav, reqs, inv, se, ste, ce, eth, src, we⟩ := env
  cases nav <;> cases se <;> cases ste <;> cases ce <;> cases we <;>
    simp [tryAnalyze]

/-- No step of the `try` block ever writes the `fingerprinting` sub-record:
the page-global `_fingerprinting` flags are never read back. -/
theorem tryAnalyze_fingerprinting (env : PageEnv) (r : AnalysisRecord) :
    (tryAnalyze env r).fingerprinting = r.fingerprinting := by
  obtain ⟨nav, reqs, inv, se, ste, ce, eth, src, we⟩ := env
  cases nav <;> cases se <;> cases ste <;> cases ce <;> cases we <;>
    simp [tryAnalyze]

theorem tryAnalyze_networkRequests (env : PageEnv) (r : AnalysisRecord) :
    (tryAnalyze env r).networkRequests = r.networkRequests := by
  obtain ⟨nav, reqs, inv, se, ste, ce, eth, src, we⟩ := env
  cases nav <;> cases se <;> cases ste <;> cases ce <;> cases we <;>
    simp [tryAnalyze]

/-- When some step of the `try` block throws, the catch branch stores exactly
one message, regardless of the record the body started from. -/
theorem tryAnalyze_errors_of_sessionError (env : PageEnv) (r : AnalysisRecord)
    (msg : Str) (h : sessionError env = some msg) :
    (tryAnalyze env r).errors = some [msg] := by
  obtain ⟨nav, reqs, inv, se, ste, ce, eth, src, we⟩ := env
  cases nav <;> cases se <;> cases ste <;> cases ce <;> cases we <;>
    simp_all [sessionError, tryAnalyze]

/-- When no step throws, `errors` is never assigned. -/
theorem tryAnalyze_errors_of_no_sessionError (env : PageEnv) (r : AnalysisRecord)
    (h : sessionError env = none) :
    (tryAnalyze env r).errors = r.errors := by
  obtain ⟨nav, reqs, inv, se, ste, ce, eth, src, we⟩ := env
  cases nav <;> cases se <;> cases ste <;> cases ce <;> cases we <;>
    simp_all [sessionError, tryAnalyze]

/-- On navigation failure, the `try` body stops at `page.goto`: only the
error message is recorded and every extraction field keeps its value. -/
theorem tryAnalyze_of_navFailure (env : PageEnv) (r : AnalysisRecord)
    (msg : Str) (h : env.navResult = some msg) :
    tryAnalyze env r = { r with errors := some [msg] } := by
  unfold tryAnalyze
  rw [h]

theorem mem_setKey {m : List (Str × AnalysisRecord)} {key : Str}
    {value : AnalysisRecord} {p : Str × AnalysisRecord}
    (h : p ∈ setKey m key value) : p ∈ m ∨ p = (key, value) := by
  induction m with
  | nil =>
    simp [setKey] at h
    exact Or.inr h
  | cons head tail ih =>
    obtain ⟨k, v⟩ := head
    by_cases hk : k = key
    · subst hk
      simp [setKey] at h
      rcases h with h | h
      · exact Or.inr h
      · exact Or.inl (List.mem_cons_of_mem _ h)
    · simp [setKey, hk] at h
      rcases h with h | h
      · exact Or.inl (by simp [h])
      · rcases ih h with h | h
        · exact Or.inl (List.mem_cons_of_mem _ h)
        · exact Or.inr h

/-- Updating an existing key leaves the key sequence unchanged. -/
theorem map_fst_setKey_of_mem {m : List (Str × AnalysisRecord)} {key : Str}
    (value : AnalysisRecord) (h : key ∈ m.map Prod.fst) :
    (setKey m key value).map Prod.fst = m.map Prod.fst := by
  induction m with
  | nil => simp at h
  | cons head tail ih =>
    obtain ⟨k, v⟩ := head
    by_cases hk : k = key
    · subst hk
      simp [setKey]
    · rw [List.map_cons] at h
      rcases List.mem_cons.mp h with h | h
      · exact absurd h.symm hk
      · simp [setKey, hk, ih h]

/-- Fresh keys are appended at the end. -/
theorem setKey_of_not_mem {m : List (Str × AnalysisRecord)} {key : Str}
    (value : AnalysisRecord) (h : key ∉ m.map Prod.fst) :
    setKey m key value = m ++ [(key, value)] := by
  induction m with
  | nil => simp [setKey]
  | cons head tail ih =>
    obtain ⟨k, v⟩ := head
    rw [List.map_cons] at h
    have h1 : ¬ k = key := fun e => h (List.mem_cons.mpr (Or.inl e.symm))
    have h2 : key ∉ List.map Prod.fst tail :=
      fun m => h (List.mem_cons_of_mem _ m)
    simp [setKey, h1, ih h2]

theorem getKey_setKey (m : List (Str × AnalysisRecord)) (key : Str)
    (value : AnalysisRecord) : getKey (setKey m key value) key = some value := by
  induction m with
  | nil => simp [setKey, getKey]
  | cons head tail ih =>
    obtain ⟨k, v⟩ := head
    by_cases hk : k = key <;> simp [setKey, getKey, hk, ih]

theorem foldl_walletStep_methods (source : Str) (ps : List Str)
    (acc : WalletTracking) :
    (ps.foldl (walletStep source) acc).methods
      = acc.methods ++ ps.filter (fun p => jsIncludes source p) := by
  induction ps generalizing acc with
  | nil => simp
  | cons p ps ih =>
    by_cases h : jsIncludes source p = true <;>
      simp [walletStep, h, ih, List.filter_cons]

theorem foldl_walletStep_detected (source : Str) (ps : List Str)
    (acc : WalletTracking) :
    (ps.foldl (walletStep source) acc).detected
      = (acc.detected || ps.any (fun p => jsIncludes source p)) := by
  induction ps generalizing acc with
  | nil => simp
  | cons p ps ih =>
    by_cases h : jsIncludes source p = true <;> simp [walletStep, h, ih]

/-- The methods list produced by the wallet scan: the provider identifier
(when the injected provider is present) followed by the matched patterns in
their fixed order. -/
theorem walletTrackingOf_methods (e : Bool) (source : Str) :
    (walletTrackingOf e source).methods
      = (if e then [("ethereum" : String).data] else [])
          ++ walletPatterns.filter (fun p => jsIncludes source p) := by
  cases e <;> simp [walletTrackingOf, foldl_walletStep_methods]

theorem walletTrackingOf_detected (e : Bool) (source : Str) :
    (walletTrackingOf e source).detected
      = (e || walletPatterns.any (fun p => jsIncludes source p)) := by
  cases e <;> simp [walletTrackingOf, foldl_walletStep_detected]

/-- The methods list is always a sublist of the five fixed identifiers. -/
theorem walletTrackingOf_methods_sublist (e : Bool) (source : Str) :
    List.Sublist (walletTrackingOf e source).methods
      (("ethereum" : String).data :: walletPatterns) := by
  rw [walletTrackingOf_methods]
  cases e
  · simp
  · simp

/-- Each of the five identifiers is appended at most once, so the methods
list never contains a repeated entry. -/
theorem walletTrackingOf_methods_nodup (e : Bool) (source : Str) :
    (walletTrackingOf e source).methods.Nodup := by
  have hfull : (("ethereum" : String).data :: walletPatterns).Nodup := by decide
  exact hfull.sublist (walletTrackingOf_methods_sublist e source)

/-! ## Sample inputs used by the concrete theorems -/

/-- A sample page URL (one of the targets of the batch runner). -/
def sampleUrl : Str := ("https://app.uniswap.org" : String).data

/-- A sample ISO-8601 timestamp. -/
def sampleTimestamp : Str := ("2026-10-11T00:00:00.000Z" : String).data

/-- A session where navigation succeeds, nothing interesting is on the page
and no step throws. -/
def cleanEnv : PageEnv :=
  { navResult := none
    requests := []
    invocations :=
      { canvasToDataURL := false, webglGetParameter := false,
        audioCreateOscillator := false }
    scriptsEval := .ok []
    storageEval := .ok []
    cookiesRead := .ok []
    ethereumPresent := false
    pageSource := []
    walletEval := .ok () }

/-- A session where the page invoked all three patched fingerprinting APIs
during load (so the injected instrumentation set all three page-global
flags), and everything else succeeded. -/
def fpEnv : PageEnv :=
  { cleanEnv with
      invocations :=
        { canvasToDataURL := true, webglGetParameter := true,
          audioCreateOscillator := true } }

/-- A session where `page.goto` throws (navigation timeout). -/
def failEnv : PageEnv :=
  { cleanEnv with
      navResult := some ("Navigation timeout of 30000 ms exceeded" : String).data }

/-- A tracking-matching request observed by the route handler. -/
def sampleRequest : ReqInfo :=
  { url := ("https://api.cookie3.co/collect" : String).data
    method := ("POST" : String).data
    headers := []
    data := none }

/-- A session where navigation times out after one tracking request was
already intercepted by the route handler. -/
def failEnvWithRequest : PageEnv := { failEnv with requests := [sampleRequest] }

/-- A session where the local-storage page evaluation throws. -/
def storageErrorEnv : PageEnv :=
  { cleanEnv with
      storageEval := .error ("Execution context was destroyed" : String).data }

/-- A page whose markup matches all four wallet patterns. -/
def walletSource : Str :=
  ("ethereum.on(accountsChanged, handler); wallet.on(x); web3.eth" : String).data

/-- A session whose only script is inline and mentions `cookie3` in its
content while its `src` is empty. -/
def inlineCookie3Env : PageEnv :=
  { cleanEnv with
      scriptsEval := .ok [{ src := [], content := ("cookie3 init" : String).data }] }

/-- Every record ever stored in a reachable results mapping has all four
fingerprinting flags false: `analyze` never copies the page-global
instrumentation flags into the record. -/
theorem reachable_fingerprinting_false {s : AnalyzerState} (h : Reachable s) :
    ∀ p ∈ s.results, p.2.fingerprinting
      = { canvas := false, webgl := false, fonts := false, audio := false } := by
  induction h with
  | init => intro p hp; simp [initState] at hp
  | step url timestamp env hreach ih =>
    intro p hp
    simp only [analyze] at hp
    rcases mem_setKey hp with hmem | heq
    · exact ih p hmem
    · rw [heq]
      rw [tryAnalyze_fingerprinting]
      rfl

/-! ## Claims -/

/-- C1: the claim says the page-global fingerprinting flags set by the
instrumentation are read back after navigation and copied into the record,
so a record flag is true exactly when the corresponding API was invoked.
The code never performs the read-back: on a session in which the page
invoked all three patched APIs (so the injected instrumentation left all
three page-global flags true), the returned record still carries all-false
fingerprinting flags and the aggregate report counts no fingerprinting. -/
theorem fingerprinting_flags_never_copied_back :
    (pageGlobalFlags fpEnv.invocations).canvas = true ∧
    (pageGlobalFlags fpEnv.invocations).webgl = true ∧
    (pageGlobalFlags fpEnv.invocations).audio = true ∧
    ((analyze sampleUrl sampleTimestamp fpEnv initState).2.1).fingerprinting
      = { canvas := false, webgl := false, fonts := false, audio := false } ∧
    (generateReport
        (analyze sampleUrl sampleTimestamp fpEnv initState).1).fingerprintingDetected
      = 0 := by
  refine ⟨rfl, rfl, rfl, ?_, ?_⟩ <;> rfl

/-- C2: whatever the page does, the record returned by `analyze` has all four
fingerprinting flags false (no step of `analyze` copies the page-global
instrumentation flags into the record), and in every reachable analyzer
state `generateReport` reports `fingerprintingDetected = 0`. -/
theorem analyze_fingerprinting_always_false :
    (∀ (url timestamp : Str) (env : PageEnv) (s : AnalyzerState),
      ((analyze url timestamp env s).2.1).fingerprinting
        = { canvas := false, webgl := false, fonts := false, audio := false }) ∧
    (∀ s : AnalyzerState, Reachable s →
      (generateReport s).fingerprintingDetected = 0) := by
  constructor
  · intro url timestamp env s
    simp only [analyze]
    rw [tryAnalyze_fingerprinting]
    rfl
  · intro s h
    have hall := reachable_fingerprinting_false h
    simp only [generateReport]
    refine List.countP_eq_zero.mpr ?_
    intro p hp
    simp [countsAsFingerprinting, hall p hp]

/-- Witness for C2 at a concrete reachable state: after analyzing one URL in
a session where the page invoked the fingerprinting APIs, the canvas flag of the record is still false and the report counts no fingerprinting. -/
theorem analyze_fingerprinting_always_false_witness :
    ((analyze sampleUrl sampleTimestamp fpEnv initState).2.1).fingerprinting
      = { canvas := false, webgl := false, fonts := false, audio := false } ∧
    (generateReport
        (analyze sampleUrl sampleTimestamp fpEnv initState).1).fingerprintingDetected
      = 0 :=
  ⟨analyze_fingerprinting_always_false.1 sampleUrl sampleTimestamp fpEnv initState,
   analyze_fingerprinting_always_false.2 _
     (Reachable.step sampleUrl sampleTimestamp fpEnv Reachable.init)⟩

/-- C3 counterexample: the claim says the returned record contains all
declared sub-fields, `localStorage` included, even when navigation fails.
On a navigation timeout the `localStorage` property of the record was never
assigned (the code only sets it in `analyzeLocalStorage`, which is skipped
once `page.goto` throws), while `errors` is populated — so the claim as
stated is false.  Moreover when a tracking request was intercepted before
the timeout, `networkRequests` is not empty either. -/
theorem navigation_failure_record_counterexample :
    ((analyze sampleUrl sampleTimestamp failEnv initState).2.1).errors
      = some [("Navigation timeout of 30000 ms exceeded" : String).data] ∧
    ((analyze sampleUrl sampleTimestamp failEnv initState).2.1).localStorage
      = none ∧
    ((analyze sampleUrl sampleTimestamp failEnvWithRequest
        initState).2.1).networkRequests ≠ [] := by
  exact ⟨rfl, rfl, by decide⟩

/-- C3 (amended): when navigation fails, `analyze` still returns a record
with `url`, `timestamp` and all sub-fields except `localStorage` — those
fields hold empty/default values (network requests hold whatever the route
handler observed before the failure) and `errors` is non-empty; the
`localStorage` field is absent, having never been assigned. -/
theorem navigation_failure_record_shape (url timestamp msg : Str) (env : PageEnv)
    (s : AnalyzerState) (h : env.navResult = some msg) :
    (((analyze url timestamp env s).2.1).url = url) ∧
    (((analyze url timestamp env s).2.1).timestamp = timestamp) ∧
    (((analyze url timestamp env s).2.1).trackingScripts = []) ∧
    (((analyze url timestamp env s).2.1).networkRequests
      = observedRequests env.requests) ∧
    (((analyze url timestamp env s).2.1).cookies = []) ∧
    (((analyze url timestamp env s).2.1).fingerprinting
      = { canvas := false, webgl := false, fonts := false, audio := false }) ∧
    (((analyze url timestamp env s).2.1).walletTracking
      = { detected := false, methods := [] }) ∧
    (((analyze url timestamp env s).2.1).localStorage = none) ∧
    (((analyze url timestamp env s).2.1).errors = some [msg]) ∧
    (((analyze url timestamp env s).2.1).errors ≠ some []) := by
  simp only [analyze]
  rw [tryAnalyze_of_navFailure _ _ _ h]
  simp [initialRecord]

/-- Witness for the amended C3 at a concrete failing session. -/
theorem navigation_failure_record_shape_witness :
    (((analyze sampleUrl sampleTimestamp failEnv initState).2.1).url = sampleUrl) ∧
    (((analyze sampleUrl sampleTimestamp failEnv initState).2.1).localStorage
      = none) ∧
    (((analyze sampleUrl sampleTimestamp failEnv initState).2.1).errors
      = some [("Navigation timeout of 30000 ms exceeded" : String).data]) := by
  have h := navigation_failure_record_shape sampleUrl sampleTimestamp
    ("Navigation timeout of 30000 ms exceeded" : String).data failEnv initState rfl
  exact ⟨h.1, h.2.2.2.2.2.2.2.1, h.2.2.2.2.2.2.2.2.1⟩

/-- C4: every call to `analyze` closes the browser session, hands the whole
accumulated results mapping to persistence, and stores (and returns) the
record under `results[url]`; when some step of navigation or extraction
throws, the error is caught and recorded as a one-element `errors` list
rather than re-raised. -/
theorem analyze_error_capture (url timestamp : Str) (env : PageEnv)
    (s : AnalyzerState) :
    ((analyze url timestamp env s).2.2.browserClosed = true) ∧
    ((analyze url timestamp env s).2.2.persisted
      = some (analyze url timestamp env s).1.results) ∧
    (getKey (analyze url timestamp env s).1.results url
      = some (analyze url timestamp env s).2.1) ∧
    (∀ msg, sessionError env = some msg →
      ((analyze url timestamp env s).2.1).errors = some [msg]) := by
  refine ⟨rfl, rfl, ?_, ?_⟩
  · simp only [analyze]
    exact getKey_setKey _ _ _
  · intro msg h
    simp only [analyze]
    exact tryAnalyze_errors_of_sessionError _ _ _ h

/-- Witness for C4 at a concrete session whose local-storage evaluation
throws: the error is recorded as a single message and the session effects
still happen. -/
theorem analyze_error_capture_witness :
    ((analyze sampleUrl sampleTimestamp storageErrorEnv initState).2.2.browserClosed
      = true) ∧
    (((analyze sampleUrl sampleTimestamp storageErrorEnv initState).2.1).errors
      = some [("Execution context was destroyed" : String).data]) :=
  ⟨(analyze_error_capture sampleUrl sampleTimestamp storageErrorEnv initState).1,
   (analyze_error_capture sampleUrl sampleTimestamp storageErrorEnv initState).2.2.2
     _ rfl⟩

/-- C5: request categorization is deterministic with the fixed precedence
`cookie3.co` > `analytics` > `tracking` > `other`; in particular a URL
containing both `cookie3.co` and `analytics` categorizes as `cookie3`. -/
theorem categorizeRequest_precedence (url : Str) :
    (jsIncludes url ("cookie3.co" : String).data = true →
      categorizeRequest url = ("cookie3" : String).data) ∧
    (jsIncludes url ("cookie3.co" : String).data = false →
      jsIncludes url ("analytics" : String).data = true →
      categorizeRequest url = ("analytics" : String).data) ∧
    (jsIncludes url ("cookie3.co" : String).data = false →
      jsIncludes url ("analytics" : String).data = false →
      jsIncludes url ("tracking" : String).data = true →
      categorizeRequest url = ("tracking" : String).data) ∧
    (jsIncludes url ("cookie3.co" : String).data = false →
      jsIncludes url ("analytics" : String).data = false →
      jsIncludes url ("tracking" : String).data = false →
      categorizeRequest url = ("other" : String).data) ∧
    (jsIncludes url ("cookie3.co" : String).data = true →
      jsIncludes url ("analytics" : String).data = true →
      categorizeRequest url = ("cookie3" : String).data) := by
  refine ⟨?_, ?_, ?_, ?_, ?_⟩ <;> intros <;> simp_all [categorizeRequest]

/-- Witness for C5: concrete URLs exercising each precedence branch,
including one containing both `cookie3.co` and `analytics`. -/
theorem categorizeRequest_precedence_witness :
    categorizeRequest ("https://cookie3.co/analytics/collect" : String).data
      = ("cookie3" : String).data ∧
    categorizeRequest ("https://cdn.example.com/analytics.js" : String).data
      = ("analytics" : String).data ∧
    categorizeRequest ("https://cdn.example.com/tracking.js" : String).data
      = ("tracking" : String).data ∧
    categorizeRequest ("https://cdn.example.com/app.js" : String).data
      = ("other" : String).data :=
  ⟨(categorizeRequest_precedence _).2.2.2.2 (by decide) (by decide),
   (categorizeRequest_precedence _).2.1 (by decide) (by decide),
   (categorizeRequest_precedence _).2.2.1 (by decide) (by decide) (by decide),
   (categorizeRequest_precedence _).2.2.2.1 (by decide) (by decide) (by decide)⟩

/-- C6: a script element is retained by `analyzeTrackingScripts` exactly when
its `src` or inline content contains one of the five keywords as a
case-sensitive substring; `https://x.com/Analytics.js` (capital A) is not
retained while `https://x.com/analytics.js` is. -/
theorem trackingScripts_retention (scripts : List TrackingScript)
    (script : TrackingScript) :
    (script ∈ filterTrackingScripts scripts ↔
      script ∈ scripts ∧
        (trackingKeywords.any (fun term =>
          jsIncludes script.src term || jsIncludes script.content term)) = true) ∧
    isTrackingScript
        { src := ("https://x.com/Analytics.js" : String).data, content := [] }
      = false ∧
    isTrackingScript
        { src := ("https://x.com/analytics.js" : String).data, content := [] }
      = true := by
  refine ⟨?_, by decide, by decide⟩
  simp [filterTrackingScripts, List.mem_filter, isTrackingScript]

/-- C7: `generateReport` is a pure read of the in-memory results mapping:
it leaves the state unchanged, and two consecutive calls with no
intervening `analyze` yield identical reports. -/
theorem generateReport_pure_idempotent (s : AnalyzerState) :
    ((generateReportOp s).1 = s) ∧
    ((generateReportOp (generateReportOp s).1).2 = (generateReportOp s).2) :=
  ⟨rfl, rfl⟩

/-- C8: re-analyzing a URL already present in the results mapping overwrites
its entry: the key sequence and the mapping size are unchanged and the entry
now holds the new record. -/
theorem reanalyze_overwrites (url timestamp : Str) (env : PageEnv)
    (s : AnalyzerState) (h : url ∈ s.results.map Prod.fst) :
    ((analyze url timestamp env s).1.results.map Prod.fst
      = s.results.map Prod.fst) ∧
    ((analyze url timestamp env s).1.results.length = s.results.length) ∧
    (getKey (analyze url timestamp env s).1.results url
      = some (analyze url timestamp env s).2.1) := by
  refine ⟨?_, ?_, ?_⟩
  · simp only [analyze]
    exact map_fst_setKey_of_mem _ h
  · have hmap : (analyze url timestamp env s).1.results.map Prod.fst
        = s.results.map Prod.fst := by
      simp only [analyze]
      exact map_fst_setKey_of_mem _ h
    calc (analyze url timestamp env s).1.results.length
        = ((analyze url timestamp env s).1.results.map Prod.fst).length := by
          rw [List.length_map]
      _ = (s.results.map Prod.fst).length := by rw [hmap]
      _ = s.results.length := List.length_map _ _
  · simp only [analyze]
    exact getKey_setKey _ _ _

/-- Witness for C8: analyze the sample URL once, then re-analyze it with a
different session; the mapping still has exactly one entry, now holding the
second record. -/
theorem reanalyze_overwrites_witness :
    (((analyze sampleUrl sampleTimestamp fpEnv
          (analyze sampleUrl sampleTimestamp cleanEnv initState).1).1.results.map
        Prod.fst)
      = ((analyze sampleUrl sampleTimestamp cleanEnv initState).1.results.map
          Prod.fst)) ∧
    ((analyze sampleUrl sampleTimestamp fpEnv
        (analyze sampleUrl sampleTimestamp cleanEnv initState).1).1.results.length
      = (analyze sampleUrl sampleTimestamp cleanEnv
          initState).1.results.length) :=
  ⟨(reanalyze_overwrites sampleUrl sampleTimestamp fpEnv
      (analyze sampleUrl sampleTimestamp cleanEnv initState).1 (by decide)).1,
   (reanalyze_overwrites sampleUrl sampleTimestamp fpEnv
      (analyze sampleUrl sampleTimestamp cleanEnv initState).1 (by decide)).2.1⟩

/-- C9 counterexample: the claim asserts that for some page state with
multiple matches the methods list contains a repeated entry.  It never does:
each of the five identifiers is appended at most once, so even the page
state matching the provider check and all four patterns yields five distinct
entries, and no page state at all produces a duplicate. -/
theorem walletTracking_no_duplicates :
    (walletTrackingOf true walletSource).methods
      = [("ethereum" : String).data, ("accountsChanged" : String).data,
         ("ethereum.on(" : String).data, ("wallet.on(" : String).data,
         ("web3" : String).data] ∧
    (walletTrackingOf true walletSource).methods.Nodup ∧
    ¬ ∃ (e : Bool) (source : Str),
        ¬ (walletTrackingOf e source).methods.Nodup := by
  refine ⟨by decide, by decide, ?_⟩
  rintro ⟨e, source, hn⟩
  exact hn (walletTrackingOf_methods_nodup e source)

/-- C9 (amended): presence of the injected provider object or any matched
pattern sets `detected = true` and appends the corresponding identifier to
the methods list; no deduplication step is applied, but since each of the
five distinct identifiers is appended at most once the methods list never
contains a repeated entry. -/
theorem walletTracking_detection (e : Bool) (source : Str) :
    ((walletTrackingOf e source).detected
      = (e || walletPatterns.any (fun p => jsIncludes source p))) ∧
    (e = true →
      ("ethereum" : String).data ∈ (walletTrackingOf e source).methods) ∧
    (∀ p ∈ walletPatterns, jsIncludes source p = true →
      p ∈ (walletTrackingOf e source).methods) ∧
    (walletTrackingOf e source).methods.Nodup := by
  refine ⟨walletTrackingOf_detected e source, ?_, ?_,
    walletTrackingOf_methods_nodup e source⟩
  · intro he
    rw [walletTrackingOf_methods, he]
    exact List.mem_append_left _ (by simp)
  · intro p hp hinc
    rw [walletTrackingOf_methods]
    exact List.mem_append_right _ (List.mem_filter.mpr ⟨hp, hinc⟩)

/-- Witness for the amended C9 at the full-match page state. -/
theorem walletTracking_detection_witness :
    ((walletTrackingOf true walletSource).detected = true) ∧
    (("ethereum" : String).data ∈ (walletTrackingOf true walletSource).methods) ∧
    (("accountsChanged" : String).data
      ∈ (walletTrackingOf true walletSource).methods) :=
  ⟨(walletTracking_detection true walletSource).1.trans (by decide),
   (walletTracking_detection true walletSource).2.1 rfl,
   (walletTracking_detection true walletSource).2.2.1 _ (by decide) (by decide)⟩

/-- C10: the `trackingImplementations.cookie3` counter of the report tallies
exactly the records having some tracking-script entry whose `src` contains
`cookie3`; a record whose only tracking script was retained because its
inline content mentions `cookie3` (empty `src`) is retained by the script
filter yet not counted. -/
theorem cookie3_counter_src_only :
    (∀ s : AnalyzerState,
      (generateReport s).cookie3
        = s.results.countP (fun entry =>
            entry.2.trackingScripts.any (fun script =>
              jsIncludes script.src ("cookie3" : String).data))) ∧
    (((analyze sampleUrl sampleTimestamp inlineCookie3Env
        initState).2.1).trackingScripts
      = [{ src := [], content := ("cookie3 init" : String).data }]) ∧
    ((generateReport
        (analyze sampleUrl sampleTimestamp inlineCookie3Env initState).1).cookie3
      = 0) := by
  refine ⟨fun s => rfl, by decide, by decide⟩

end Web3TrackingAnalyzer
